import Mathlib

/-!
Verification of the authenticated HTTP client core of the YouMap MCP gateway
(`src/client.ts`, class `YouMapClient`).

The embedding has two layers:

* a sequential model of one logical invocation of the request pipeline
  (`ensureAuthenticated`, `authenticate`, `refreshAccessToken`, `request`),
  parameterised by a network oracle scripting the outcomes of the identity,
  refresh and business calls; and
* a small-step interleaving model of the authentication gate (`step`, `run`),
  where each step is one atomic block between two `await` suspension points
  of the single-threaded cooperative runtime, and a schedule picks which task
  advances.
-/

set_option linter.unusedVariables false

namespace YouMap

/-- Token pair as stored by the client (interface `AuthTokens` in
`client.ts`): access token, refresh token, `expiresIn` in seconds and
`obtainedAt` in milliseconds since the epoch. -/
structure AuthTokens where
  token : String
  refreshToken : String
  expiresIn : Int
  obtainedAt : Int
deriving DecidableEq

/-- Client configuration fields relevant to authentication
(`YouMapClientConfig`). -/
structure Config where
  apiKey : Option String
  clientId : Option String
  clientSecret : Option String
deriving DecidableEq

/-- Auth-mode selector fixed at construction: `useApiKey = !!config.apiKey`. -/
def Config.useApiKey (c : Config) : Bool := c.apiKey.isSome

/-- Mutable fields of a `YouMapClient` instance: the token store and the
authentication-in-progress flag. -/
structure ClientState where
  authTokens : Option AuthTokens
  isAuthenticating : Bool
deriving DecidableEq

/-- Source method `isTokenExpired`: true when no token pair is held, or when
`Date.now() >= obtainedAt + expiresIn * 1000 - 5 * 60 * 1000`. -/
def isTokenExpired (now : Int) (tok : Option AuthTokens) : Bool :=
  match tok with
  | none => true
  | some t => decide (t.obtainedAt + t.expiresIn * 1000 - 5 * 60 * 1000 ≤ now)

/-- Body of a successful identity-exchange or refresh response:
`{token, refreshToken, expiresIn}`. -/
structure NetTok where
  token : String
  refreshToken : String
  expiresIn : Int
deriving DecidableEq

/-- Installation of a network token body into the store, stamping
`obtainedAt := Date.now()` (the assignments at the end of `authenticate` and
`refreshAccessToken`). -/
def installTok (now : Int) (nt : NetTok) : AuthTokens :=
  { token := nt.token, refreshToken := nt.refreshToken,
    expiresIn := nt.expiresIn, obtainedAt := now }

/-- Outcome of one business HTTP attempt as seen by the response interceptor:
a successful response body, or an axios error carrying
`error.response?.status` (`none` models a transport error with no HTTP
response). -/
inductive BizOutcome
  | ok (body : String)
  | err (status : Option Nat)
deriving DecidableEq

/-- Network oracle for one logical invocation: `Date.now()` (held fixed for
the invocation) and the successive scripted results of the identity and
refresh endpoints (`none` = the endpoint rejected or was unreachable). -/
structure Env where
  now : Int
  authResults : List (Option NetTok)
  refreshResults : List (Option NetTok)
deriving DecidableEq

/-- Errors thrown by the client core. -/
inductive PErr
  | authConfig       -- "Authentication required: Set YOUMAP_API_KEY or ..."
  | authRequest      -- the identity endpoint rejected or was unreachable
  | refreshNoToken   -- "No refresh token available"
  | refreshFailed    -- the refresh endpoint rejected or was unreachable
  | postAuthNoToken  -- "Failed to authenticate after token refresh failure"
  | http (status : Option Nat)  -- business-call error propagated unchanged
deriving DecidableEq

/-- Authentication-relevant headers attached by the request interceptor. -/
structure Headers where
  xApiKey : Option String
  authorization : Option String
deriving DecidableEq

/-- Bearer header value attached by the request interceptor: present exactly
when the store holds a token pair (`if (this.authTokens) ...`), absent
otherwise — no Authorization header at all. -/
def attachAuthHeader (tok : Option AuthTokens) : Option String :=
  tok.map (fun t => "Bearer " ++ t.token)

/-- Network events of one invocation, in order of issue. -/
inductive Ev
  | biz (h : Headers)  -- one business-call attempt with its headers
  | auth               -- POST /api/v1/auth
  | refresh            -- POST /api/v1/auth/refreshAccessToken
deriving DecidableEq

/-- Number of business-call attempts in an event list. -/
def countBiz (evs : List Ev) : Nat :=
  (evs.filter (fun e => match e with | .biz _ => true | _ => false)).length

/-- Number of identity-exchange calls in an event list. -/
def countAuth (evs : List Ev) : Nat :=
  (evs.filter (fun e => e == Ev.auth)).length

/-- Number of refresh calls in an event list. -/
def countRefresh (evs : List Ev) : Nat :=
  (evs.filter (fun e => e == Ev.refresh)).length

deriving instance DecidableEq for Except

/-- Result of one auth-layer operation: outcome, client state, remaining
oracle, events issued. -/
structure AuthStep where
  res : Except PErr Unit
  st : ClientState
  env : Env
  evs : List Ev
deriving DecidableEq

/-- Result of one pipeline invocation: response body or error, client state,
remaining oracle, events issued. -/
structure CallResult where
  res : Except PErr String
  st : ClientState
  env : Env
  evs : List Ev
deriving DecidableEq

/-- Source method `authenticate`: sets the in-progress flag, issues
`POST /api/v1/auth`, on success installs the fresh pair into the store
(stamping `obtainedAt = Date.now()`), and clears the flag in a `finally`.
An exhausted oracle behaves like an endpoint failure. -/
def authenticate (st : ClientState) (env : Env) : AuthStep :=
  match env.authResults with
  | [] =>
      { res := .error .authRequest, st := { st with isAuthenticating := false },
        env := env, evs := [.auth] }
  | some nt :: rest =>
      { res := .ok (),
        st := { authTokens := some (installTok env.now nt), isAuthenticating := false },
        env := { env with authResults := rest }, evs := [.auth] }
  | none :: rest =>
      { res := .error .authRequest, st := { st with isAuthenticating := false },
        env := { env with authResults := rest }, evs := [.auth] }

/-- Source method `ensureAuthenticated`, as executed by one caller.  When the
in-progress flag is set the caller polls until the flag clears and then
returns relying on the then-current store state, re-checking nothing; in this
sequential model that collapses to an immediate return with the state
unchanged (the poll loop itself is the gate model's `PC.eaWait`). -/
def ensureAuthenticated (cfg : Config) (st : ClientState) (env : Env) : AuthStep :=
  if cfg.useApiKey then { res := .ok (), st := st, env := env, evs := [] }
  else if st.isAuthenticating then { res := .ok (), st := st, env := env, evs := [] }
  else if st.authTokens.isSome && !isTokenExpired env.now st.authTokens then
    { res := .ok (), st := st, env := env, evs := [] }
  else if cfg.clientId.isNone || cfg.clientSecret.isNone then
    { res := .error .authConfig, st := st, env := env, evs := [] }
  else authenticate st env

/-- Source method `refreshAccessToken`: throws when no token pair is held,
otherwise issues the refresh call and on success installs the new pair
(stamping `obtainedAt = Date.now()`).  It never touches the in-progress
flag. -/
def refreshAccessToken (st : ClientState) (env : Env) : AuthStep :=
  match st.authTokens with
  | none => { res := .error .refreshNoToken, st := st, env := env, evs := [] }
  | some _ =>
      match env.refreshResults with
      | [] =>
          { res := .error .refreshFailed, st := st, env := env, evs := [.refresh] }
      | some nt :: rest =>
          { res := .ok (), st := { st with authTokens := some (installTok env.now nt) },
            env := { env with refreshResults := rest }, evs := [.refresh] }
      | none :: rest =>
          { res := .error .refreshFailed, st := st,
            env := { env with refreshResults := rest }, evs := [.refresh] }

/-- One dispatch through `this.client(...)`: the request interceptor (API-key
header, or `ensureAuthenticated` plus bearer header), one business attempt
consuming the head of the scripted outcome list, then the response
interceptor.  The interceptor's 401 handling retries with
`return this.client(originalRequest)`, which re-enters the whole chain —
modelled by recursion on the remaining scripted business outcomes. -/
def request (cfg : Config) : ClientState → Env → List BizOutcome → CallResult
  | st, env, [] => { res := .error (.http none), st := st, env := env, evs := [] }
  | st, env, r :: rest =>
    if cfg.useApiKey then
      match r with
      | .ok body =>
          { res := .ok body, st := st, env := env,
            evs := [.biz { xApiKey := cfg.apiKey, authorization := none }] }
      | .err s =>
          { res := .error (.http s), st := st, env := env,
            evs := [.biz { xApiKey := cfg.apiKey, authorization := none }] }
    else
      let a := ensureAuthenticated cfg st env
      match a.res with
      | .error e => { res := .error e, st := a.st, env := a.env, evs := a.evs }
      | .ok _ =>
        let hdr : Headers :=
          { xApiKey := none, authorization := attachAuthHeader a.st.authTokens }
        match r with
        | .ok body =>
            { res := .ok body, st := a.st, env := a.env, evs := a.evs ++ [.biz hdr] }
        | .err s =>
          if s = some 401 ∧ a.st.authTokens.isSome then
            let rf := refreshAccessToken a.st a.env
            match rf.res with
            | .ok _ =>
              match rf.st.authTokens with
              | some _ =>
                let k := request cfg rf.st rf.env rest
                { res := k.res, st := k.st, env := k.env,
                  evs := a.evs ++ [.biz hdr] ++ rf.evs ++ k.evs }
              | none =>
                  -- dead in practice: a successful refresh always installs
                  { res := .error (.http s), st := rf.st, env := rf.env,
                    evs := a.evs ++ [.biz hdr] ++ rf.evs }
            | .error _ =>
              let a2 := ensureAuthenticated cfg { rf.st with authTokens := none } rf.env
              match a2.res with
              | .error e2 =>
                  { res := .error e2, st := a2.st, env := a2.env,
                    evs := a.evs ++ [.biz hdr] ++ rf.evs ++ a2.evs }
              | .ok _ =>
                match a2.st.authTokens with
                | some _ =>
                  let k := request cfg a2.st a2.env rest
                  { res := k.res, st := k.st, env := k.env,
                    evs := a.evs ++ [.biz hdr] ++ rf.evs ++ a2.evs ++ k.evs }
                | none =>
                    { res := .error .postAuthNoToken, st := a2.st, env := a2.env,
                      evs := a.evs ++ [.biz hdr] ++ rf.evs ++ a2.evs }
          else
            { res := .error (.http s), st := a.st, env := a.env,
              evs := a.evs ++ [.biz hdr] }

/-- Pipeline method `get`: one dispatch returning `response.data`. -/
def get (cfg : Config) (st : ClientState) (env : Env) (biz : List BizOutcome) : CallResult :=
  request cfg st env biz

/-- Pipeline method `post`. -/
def post (cfg : Config) (st : ClientState) (env : Env) (biz : List BizOutcome) : CallResult :=
  request cfg st env biz

/-- Pipeline method `put`. -/
def put (cfg : Config) (st : ClientState) (env : Env) (biz : List BizOutcome) : CallResult :=
  request cfg st env biz

/-- Pipeline method `patch`. -/
def patch (cfg : Config) (st : ClientState) (env : Env) (biz : List BizOutcome) : CallResult :=
  request cfg st env biz

/-- Pipeline method `delete`. -/
def delete (cfg : Config) (st : ClientState) (env : Env) (biz : List BizOutcome) : CallResult :=
  request cfg st env biz

/-!
The interleaving model of the authentication gate.  The runtime is
single-threaded and cooperative: control changes hands only at `await`
suspension points, so each transition below is one of the atomic blocks of
`ensureAuthenticated` / `authenticate` / the 401 response-interceptor
handler, and a schedule (a list of task indices) resolves the
nondeterministic interleaving.
-/

/-- Program counter of one cooperative task.  `eaStart` is the entry of
`ensureAuthenticated` (its checks run atomically into `authenticate`, which
sets the flag and then suspends on the identity call); `eaWait` is one poll
of the busy-wait loop; `eaAwaitAuth` is suspension on the identity call;
`r401Start` is the response interceptor holding a 401 with the
`refreshAccessToken` call about to be issued; `r401AwaitRefresh` is
suspension on the refresh call. -/
inductive PC
  | eaStart
  | eaWait
  | eaAwaitAuth
  | r401Start
  | r401AwaitRefresh
  | tDoneOk
  | tDoneErr
deriving DecidableEq

/-- One cooperative task: its program counter and the scripted result of the
network call it is (or will be) awaiting (`none` = the endpoint fails). -/
structure GTask where
  pc : PC
  netResult : Option NetTok
deriving DecidableEq

/-- Gate-level network event kinds. -/
inductive GEv
  | auth
  | refresh
deriving DecidableEq

/-- Interleaving state of one client instance: the number of tasks, the
shared flag and token store, every task, and the trace of network calls
issued so far, each paired with the value the in-progress flag had when the
issuing atomic block began. -/
structure Sys where
  n : Nat
  flag : Bool
  tokens : Option AuthTokens
  tasks : Nat → GTask
  trace : List (GEv × Bool)

/-- Pointwise update of the task table. -/
def setTask (f : Nat → GTask) (i : Nat) (t : GTask) : Nat → GTask :=
  fun j => if j = i then t else f j

/-- One atomic step of task `i`: the code between two `await` suspension
points in `client.ts`, against the shared flag and token store.  Stepping a
finished task, or an index out of range, changes nothing. -/
def step (cfg : Config) (now : Int) (s : Sys) (i : Nat) : Sys :=
  if i < s.n then
    let t := s.tasks i
    match t.pc with
    | .eaStart =>
        if cfg.useApiKey then
          { s with tasks := setTask s.tasks i { t with pc := .tDoneOk } }
        else if s.flag then
          { s with tasks := setTask s.tasks i { t with pc := .eaWait } }
        else if s.tokens.isSome && !isTokenExpired now s.tokens then
          { s with tasks := setTask s.tasks i { t with pc := .tDoneOk } }
        else if cfg.clientId.isNone || cfg.clientSecret.isNone then
          { s with tasks := setTask s.tasks i { t with pc := .tDoneErr } }
        else
          { s with flag := true,
                   tasks := setTask s.tasks i { t with pc := .eaAwaitAuth },
                   trace := s.trace ++ [(.auth, s.flag)] }
    | .eaWait =>
        if s.flag then s
        else { s with tasks := setTask s.tasks i { t with pc := .tDoneOk } }
    | .eaAwaitAuth =>
        match t.netResult with
        | some nt =>
            { s with flag := false, tokens := some (installTok now nt),
                     tasks := setTask s.tasks i { t with pc := .tDoneOk } }
        | none =>
            { s with flag := false,
                     tasks := setTask s.tasks i { t with pc := .tDoneErr } }
    | .r401Start =>
        match s.tokens with
        | none =>
            { s with tasks := setTask s.tasks i { t with pc := .tDoneErr } }
        | some _ =>
            { s with tasks := setTask s.tasks i { t with pc := .r401AwaitRefresh },
                     trace := s.trace ++ [(.refresh, s.flag)] }
    | .r401AwaitRefresh =>
        match t.netResult with
        | some nt =>
            { s with tokens := some (installTok now nt),
                     tasks := setTask s.tasks i { t with pc := .tDoneOk } }
        | none =>
            { s with tokens := none,
                     tasks := setTask s.tasks i { t with pc := .eaStart } }
    | .tDoneOk => s
    | .tDoneErr => s
  else s

/-- Run a schedule: fold `step` over the chosen task indices. -/
def run (cfg : Config) (now : Int) (s : Sys) (sched : List Nat) : Sys :=
  sched.foldl (step cfg now) s

/-- Initial system for the N-concurrent-callers scenario: `n` tasks all
entering `ensureAuthenticated`, no token held, flag clear, the identity
endpoint scripted to answer `nt` to whichever task reaches it. -/
def initSys (n : Nat) (nt : NetTok) : Sys :=
  { n := n, flag := false, tokens := none,
    tasks := fun _ => { pc := .eaStart, netResult := some nt }, trace := [] }

/-!
Concrete scenarios used by the counterexample theorems.
-/

/-- OAuth-mode configuration with both credentials present. -/
def cCfg : Config := { apiKey := none, clientId := some "id", clientSecret := some "secret" }

/-- A held token pair that is fresh at instant 0 (one hour to expiry). -/
def cTok : AuthTokens := { token := "t0", refreshToken := "r0", expiresIn := 3600, obtainedAt := 0 }

/-- Client state holding `cTok`, not authenticating. -/
def cSt : ClientState := { authTokens := some cTok, isAuthenticating := false }

/-- First scripted identity/refresh response body. -/
def cNt1 : NetTok := { token := "t1", refreshToken := "r1", expiresIn := 3600 }

/-- Second scripted identity/refresh response body. -/
def cNt2 : NetTok := { token := "t2", refreshToken := "r2", expiresIn := 3600 }

/-- Invocation whose business call returns 401 twice before succeeding, with
both refresh calls succeeding: the retried request re-enters the interceptor
chain, so a third business attempt occurs. -/
def c2run : CallResult :=
  request cCfg cSt { now := 0, authResults := [], refreshResults := [some cNt1, some cNt2] }
    [.err (some 401), .err (some 401), .ok "x"]

/-- Invocation whose first 401 is followed by a failing refresh, a successful
full re-authentication, and a retry that itself returns 401 before a third
attempt succeeds. -/
def c4run : CallResult :=
  request cCfg cSt { now := 0, authResults := [some cNt1], refreshResults := [none, some cNt2] }
    [.err (some 401), .err (some 401), .ok "x"]

/-- Client state with an empty token store. -/
def c8st : ClientState := { authTokens := none, isAuthenticating := false }

/-- Oracle scripting one successful identity exchange. -/
def c8env : Env := { now := 0, authResults := [some cNt1], refreshResults := [] }

/-- Oracle scripting one successful refresh. -/
def c8envB : Env := { now := 0, authResults := [], refreshResults := [some cNt2] }

/-- A held token pair that is stale at instant 0. -/
def c1stale : AuthTokens := { token := "old", refreshToken := "oldr", expiresIn := 0, obtainedAt := 0 }

/-- Two tasks sharing one client instance holding a stale pair: task 0 enters
`ensureAuthenticated` (and will authenticate), task 1 is a response
interceptor holding a 401 (and will refresh). -/
def c1sys : Sys :=
  { n := 2, flag := false, tokens := some c1stale,
    tasks := fun j => if j = 0 then { pc := .eaStart, netResult := some cNt1 }
                      else { pc := .r401Start, netResult := some cNt2 },
    trace := [] }

/-- Two tasks entering `ensureAuthenticated` on an empty store: task 0's
identity call is scripted to fail, task 1 becomes a waiter. -/
def c7sys : Sys :=
  { n := 2, flag := false, tokens := none,
    tasks := fun j => if j = 0 then { pc := .eaStart, netResult := none }
                      else { pc := .eaStart, netResult := some cNt1 },
    trace := [] }

/-- Gate invariant for the N-concurrent-callers scenario (OAuth mode,
credentials present, the identity endpoint answering the fresh pair `nt`):
every reachable state is in one of three phases — before any authentication
(flag clear, empty store, empty trace, every task at the entry), one
authentication in flight (flag held, exactly one task awaiting the identity
call, no second call issued), or after the single successful authentication
(flag clear, fresh pair installed, exactly one identity call on the trace). -/
def GateInv (now : Int) (nt : NetTok) (s : Sys) : Prop :=
  (∀ j, (s.tasks j).netResult = some nt) ∧
  ((s.flag = false ∧ s.tokens = none ∧ s.trace = [] ∧ ∀ j, (s.tasks j).pc = PC.eaStart)
   ∨ (s.flag = true ∧ s.tokens = none ∧ s.trace = [(GEv.auth, false)]
      ∧ (∀ j, (s.tasks j).pc = PC.eaStart ∨ (s.tasks j).pc = PC.eaWait
          ∨ (s.tasks j).pc = PC.eaAwaitAuth)
      ∧ ∀ j k, (s.tasks j).pc = PC.eaAwaitAuth → (s.tasks k).pc = PC.eaAwaitAuth → j = k)
   ∨ (s.flag = false ∧ s.tokens = some (installTok now nt) ∧ s.trace = [(GEv.auth, false)]
      ∧ ∀ j, (s.tasks j).pc = PC.eaStart ∨ (s.tasks j).pc = PC.eaWait
          ∨ (s.tasks j).pc = PC.tDoneOk))

/-!
Theorems.  Each claim of the specification is settled by one theorem below
(plus, where the claim fails on the code, a closed counterexample theorem).
-/

/-- C6: in API-key mode the pipeline never calls the identity or refresh
endpoints regardless of response status; the `X-API-Key` header (and no
bearer header) is attached to the request; and one dispatch is exactly one
business attempt whose raw outcome — success or failure — propagates with no
retry and no state change. -/
theorem apiKey_mode_no_auth (k : String) (cid cs : Option String)
    (st : ClientState) (env : Env) (b : BizOutcome) (rest : List BizOutcome) :
    request { apiKey := some k, clientId := cid, clientSecret := cs } st env (b :: rest)
      = { res := match b with
                 | .ok body => Except.ok body
                 | .err s => Except.error (.http s),
          st := st, env := env,
          evs := [.biz { xApiKey := some k, authorization := none }] } := by
  cases b <;> simp [request, Config.useApiKey]

/-- C9: in OAuth mode, when a credential is absent and no unexpired pair is
held, `ensureAuthenticated` throws the configuration error before any network
call (no events), and the authentication-in-progress flag is false when the
failure propagates. -/
theorem missing_credentials_fail_fast (cfg : Config) (st : ClientState) (env : Env)
    (hapi : cfg.apiKey = none) (hflag : st.isAuthenticating = false)
    (hcred : cfg.clientId = none ∨ cfg.clientSecret = none)
    (htok : isTokenExpired env.now st.authTokens = true) :
    ensureAuthenticated cfg st env
      = { res := .error .authConfig, st := st, env := env, evs := [] }
    ∧ (ensureAuthenticated cfg st env).st.isAuthenticating = false := by
  have h1 : cfg.useApiKey = false := by simp [Config.useApiKey, hapi]
  have h2 : (st.authTokens.isSome && !isTokenExpired env.now st.authTokens) = false := by
    simp [htok]
  have h3 : (cfg.clientId.isNone || cfg.clientSecret.isNone) = true := by
    rcases hcred with h | h <;> simp [h]
  have heq : ensureAuthenticated cfg st env
      = { res := .error .authConfig, st := st, env := env, evs := [] } := by
    simp [ensureAuthenticated, h1, hflag, h2, h3]
  exact ⟨heq, by rw [heq]; exact hflag⟩

/-- C9 witness: concrete OAuth configuration with no credentials and an empty
store. -/
theorem missing_credentials_fail_fast_witness :
    ensureAuthenticated { apiKey := none, clientId := none, clientSecret := none }
        { authTokens := none, isAuthenticating := false }
        { now := 0, authResults := [], refreshResults := [] }
      = { res := .error .authConfig,
          st := { authTokens := none, isAuthenticating := false },
          env := { now := 0, authResults := [], refreshResults := [] }, evs := [] }
    ∧ (ensureAuthenticated { apiKey := none, clientId := none, clientSecret := none }
        { authTokens := none, isAuthenticating := false }
        { now := 0, authResults := [], refreshResults := [] }).st.isAuthenticating = false :=
  missing_credentials_fail_fast _ _ _ rfl rfl (Or.inl rfl) (by decide)

/-- C8 counterexample: both Authenticator methods mutate the token store
themselves — `authenticate` installs into an empty store, and
`refreshAccessToken` replaces a held pair — contradicting the claim that
installation is left to the caller. -/
theorem auth_methods_mutate_store :
    (authenticate c8st c8env).st.authTokens ≠ c8st.authTokens
    ∧ (refreshAccessToken cSt c8envB).st.authTokens ≠ cSt.authTokens := by
  decide

/-- C8 amended: `authenticate` and `refreshAccessToken` each install the
token pair they obtain into the store themselves (stamping
`obtainedAt = now`); no separate installation step by the caller exists. -/
theorem auth_methods_install_store :
    (∀ (st : ClientState) (env : Env) (nt : NetTok) (rest : List (Option NetTok)),
        env.authResults = some nt :: rest →
        (authenticate st env).st.authTokens = some (installTok env.now nt)
        ∧ (authenticate st env).res = .ok ())
    ∧ (∀ (st : ClientState) (env : Env) (tk : AuthTokens) (nt : NetTok)
        (rest : List (Option NetTok)),
        st.authTokens = some tk → env.refreshResults = some nt :: rest →
        (refreshAccessToken st env).st.authTokens = some (installTok env.now nt)
        ∧ (refreshAccessToken st env).res = .ok ()) := by
  constructor
  · intro st env nt rest h
    simp [authenticate, h]
  · intro st env tk nt rest h h2
    simp [refreshAccessToken, h, h2]

/-- C8 witness: the amended installation behaviour at a concrete input. -/
theorem auth_methods_install_store_witness :
    (authenticate c8st c8env).st.authTokens = some (installTok c8env.now cNt1)
    ∧ (authenticate c8st c8env).res = .ok () :=
  auth_methods_install_store.1 c8st c8env cNt1 [] rfl

/-- C2 counterexample: with the business call answering 401 twice before
succeeding and both refreshes succeeding, three business attempts occur in
one logical invocation — the claim's bound of at most two fails, because the
retried request re-enters the interceptor chain with no retry guard. -/
theorem three_business_attempts :
    countBiz c2run.evs = 3 ∧ 2 < countBiz c2run.evs ∧ c2run.res = .ok "x" := by
  decide

/-- C4 counterexample: after the 401-triggered refresh fails, the client
re-authenticates and retries — but when that retry itself returns 401 the
cycle repeats instead of surfacing the retry's failure: three business
attempts and two refresh calls occur, and the surfaced outcome is the third
attempt's success, not the retry's final outcome. -/
theorem reauth_retry_not_final_outcome :
    countBiz c4run.evs = 3 ∧ countRefresh c4run.evs = 2 ∧ countAuth c4run.evs = 1
    ∧ c4run.res = .ok "x" := by
  decide

/-- C5: `isTokenExpired` is true exactly when no pair is held or
`now ≥ obtainedAt + expiresIn*1000 - 5 minutes`; a pair at or past that
boundary makes `ensureAuthenticated` issue a new identity call before the
next business call, while a pair strictly inside the freshness window makes
`ensureAuthenticated` return successfully with no authenticate or refresh
call at all. -/
theorem tokenExpiry_boundary_spec :
    (∀ (now : Int) (tok : Option AuthTokens),
        isTokenExpired now tok = true ↔
          tok = none ∨ ∃ t, tok = some t
            ∧ t.obtainedAt + t.expiresIn * 1000 - 5 * 60 * 1000 ≤ now)
    ∧ (∀ (cid cs : String) (t : AuthTokens) (env : Env),
        t.obtainedAt + t.expiresIn * 1000 - 5 * 60 * 1000 ≤ env.now →
        countAuth (ensureAuthenticated
            { apiKey := none, clientId := some cid, clientSecret := some cs }
            { authTokens := some t, isAuthenticating := false } env).evs = 1)
    ∧ (∀ (cfg : Config) (t : AuthTokens) (flag : Bool) (env : Env),
        env.now < t.obtainedAt + t.expiresIn * 1000 - 5 * 60 * 1000 →
        (ensureAuthenticated cfg { authTokens := some t, isAuthenticating := flag } env).evs = []
        ∧ (ensureAuthenticated cfg
            { authTokens := some t, isAuthenticating := flag } env).res = .ok ()) := by
  refine ⟨?_, ?_, ?_⟩
  · intro now tok
    cases tok with
    | none => simp [isTokenExpired]
    | some t => simp [isTokenExpired]
  · intro cid cs t env h
    have hexp : isTokenExpired env.now (some t) = true := by
      simp [isTokenExpired]
      omega
    have heq : ensureAuthenticated
        { apiKey := none, clientId := some cid, clientSecret := some cs }
        { authTokens := some t, isAuthenticating := false } env
        = authenticate { authTokens := some t, isAuthenticating := false } env := by
      simp [ensureAuthenticated, Config.useApiKey, hexp]
    rw [heq]
    unfold authenticate
    rcases env.authResults with _ | ⟨_ | _, _⟩ <;> simp [countAuth]
  · intro cfg t flag env h
    have hfr : isTokenExpired env.now (some t) = false := by
      simp [isTokenExpired]
      omega
    unfold ensureAuthenticated
    by_cases h1 : cfg.useApiKey
    · simp [h1]
    · by_cases h2 : flag
      · simp [h1, h2]
      · simp [h1, h2, hfr]

/-- C5 witness: a pair obtained at instant 0 with one hour to expiry is fresh
at instant 0, and the boundary criterion evaluates as stated. -/
theorem tokenExpiry_boundary_spec_witness :
    (isTokenExpired 0 (some cTok) = true ↔
      some cTok = none ∨ ∃ t, some cTok = some t
        ∧ t.obtainedAt + t.expiresIn * 1000 - 5 * 60 * 1000 ≤ 0)
    ∧ (ensureAuthenticated cCfg { authTokens := some cTok, isAuthenticating := false }
        { now := 0, authResults := [], refreshResults := [] }).evs = [] :=
  ⟨tokenExpiry_boundary_spec.1 0 (some cTok),
   (tokenExpiry_boundary_spec.2.2 cCfg cTok false
      { now := 0, authResults := [], refreshResults := [] } (by decide)).1⟩

/-- C3: in OAuth mode with a fresh pair held, a single 401 answer triggers
exactly one refresh call, installs the refreshed pair, retries the business
call once (two business attempts, no identity call), and returns the
successful retry's body. -/
theorem single401_refresh_retry (cid cs body : String) (t0 : AuthTokens) (nt : NetTok)
    (now : Int) (auths rs : List (Option NetTok))
    (h0 : isTokenExpired now (some t0) = false)
    (h1 : isTokenExpired now (some (installTok now nt)) = false) :
    (request { apiKey := none, clientId := some cid, clientSecret := some cs }
        { authTokens := some t0, isAuthenticating := false }
        { now := now, authResults := auths, refreshResults := some nt :: rs }
        [.err (some 401), .ok body])
      = { res := .ok body,
          st := { authTokens := some (installTok now nt), isAuthenticating := false },
          env := { now := now, authResults := auths, refreshResults := rs },
          evs := [.biz { xApiKey := none,
                         authorization := some ("Bearer " ++ t0.token) },
                  .refresh,
                  .biz { xApiKey := none,
                         authorization := some ("Bearer " ++ nt.token) }] } := by
  simp only [installTok] at h1
  simp [request, ensureAuthenticated, refreshAccessToken, Config.useApiKey,
        attachAuthHeader, installTok, h0, h1]

/-- C3 witness: the single-401 scenario at concrete inputs. -/
theorem single401_refresh_retry_witness :
    (request cCfg cSt { now := 0, authResults := [], refreshResults := [some cNt1] }
        [.err (some 401), .ok "y"]).res = .ok "y" := by
  have h := single401_refresh_retry "id" "secret" "y" cTok cNt1 0 [] []
    (by decide) (by decide)
  rw [show cCfg = { apiKey := none, clientId := some "id", clientSecret := some "secret" } from rfl,
      show cSt = { authTokens := some cTok, isAuthenticating := false } from rfl, h]

/-- C2 amended: per 401-and-pair-held response the pipeline incurs at most
one refresh round-trip and performs one retry, and when the second business
attempt does not itself answer 401 its outcome propagates with no further
attempts (two business attempts, one refresh, no identity call).  The
original bound of two attempts per logical invocation does not hold in
general, because the retried request re-enters the interceptor chain (see the
counterexample). -/
theorem retry_cycle_bounds (cid cs : String) (t0 : AuthTokens) (nt : NetTok)
    (now : Int) (auths rs : List (Option NetTok)) (b2 : BizOutcome) (rest : List BizOutcome)
    (h0 : isTokenExpired now (some t0) = false)
    (h1 : isTokenExpired now (some (installTok now nt)) = false)
    (h2 : b2 ≠ .err (some 401)) :
    countBiz (request { apiKey := none, clientId := some cid, clientSecret := some cs }
        { authTokens := some t0, isAuthenticating := false }
        { now := now, authResults := auths, refreshResults := some nt :: rs }
        (.err (some 401) :: b2 :: rest)).evs = 2
    ∧ countRefresh (request { apiKey := none, clientId := some cid, clientSecret := some cs }
        { authTokens := some t0, isAuthenticating := false }
        { now := now, authResults := auths, refreshResults := some nt :: rs }
        (.err (some 401) :: b2 :: rest)).evs = 1
    ∧ countAuth (request { apiKey := none, clientId := some cid, clientSecret := some cs }
        { authTokens := some t0, isAuthenticating := false }
        { now := now, authResults := auths, refreshResults := some nt :: rs }
        (.err (some 401) :: b2 :: rest)).evs = 0
    ∧ (request { apiKey := none, clientId := some cid, clientSecret := some cs }
        { authTokens := some t0, isAuthenticating := false }
        { now := now, authResults := auths, refreshResults := some nt :: rs }
        (.err (some 401) :: b2 :: rest)).res
      = (match b2 with
         | .ok body => Except.ok body
         | .err s => Except.error (.http s)) := by
  simp only [installTok] at h1
  cases b2 with
  | ok body =>
      refine ⟨?_, ?_, ?_, ?_⟩ <;>
        simp [request, ensureAuthenticated, refreshAccessToken, Config.useApiKey,
              attachAuthHeader, installTok, h0, h1, countBiz, countAuth, countRefresh]
  | err s =>
      have hs : ¬ s = some 401 := fun h => h2 (by rw [h])
      refine ⟨?_, ?_, ?_, ?_⟩ <;>
        simp [request, ensureAuthenticated, refreshAccessToken, Config.useApiKey,
              attachAuthHeader, installTok, h0, h1, hs, countBiz, countAuth, countRefresh]

/-- C2 witness: a 401 followed by a plain 500 yields exactly two business
attempts and one refresh, then the 500 propagates. -/
theorem retry_cycle_bounds_witness :
    countBiz (request { apiKey := none, clientId := some "id", clientSecret := some "secret" }
        { authTokens := some cTok, isAuthenticating := false }
        { now := 0, authResults := [], refreshResults := [some cNt1] }
        [.err (some 401), .err (some 500)]).evs = 2 :=
  (retry_cycle_bounds "id" "secret" cTok cNt1 0 [] [] (.err (some 500)) []
    (by decide) (by decide) (by decide)).1

/-- C4 amended: when the 401-triggered refresh fails, the pipeline clears the
store, performs one full re-authentication, retries the business call with
the freshly obtained token, and surfaces that retry's outcome — provided the
retry does not itself answer 401 (a 401-answering retry re-enters the refresh
cycle instead; see the counterexample). -/
theorem refresh_failure_full_reauth (cid cs : String) (t0 : AuthTokens) (nta : NetTok)
    (now : Int) (as2 rs : List (Option NetTok)) (b2 : BizOutcome) (rest : List BizOutcome)
    (h0 : isTokenExpired now (some t0) = false)
    (h1 : isTokenExpired now (some (installTok now nta)) = false)
    (h2 : b2 ≠ .err (some 401)) :
    countBiz (request { apiKey := none, clientId := some cid, clientSecret := some cs }
        { authTokens := some t0, isAuthenticating := false }
        { now := now, authResults := some nta :: as2, refreshResults := none :: rs }
        (.err (some 401) :: b2 :: rest)).evs = 2
    ∧ countRefresh (request { apiKey := none, clientId := some cid, clientSecret := some cs }
        { authTokens := some t0, isAuthenticating := false }
        { now := now, authResults := some nta :: as2, refreshResults := none :: rs }
        (.err (some 401) :: b2 :: rest)).evs = 1
    ∧ countAuth (request { apiKey := none, clientId := some cid, clientSecret := some cs }
        { authTokens := some t0, isAuthenticating := false }
        { now := now, authResults := some nta :: as2, refreshResults := none :: rs }
        (.err (some 401) :: b2 :: rest)).evs = 1
    ∧ (request { apiKey := none, clientId := some cid, clientSecret := some cs }
        { authTokens := some t0, isAuthenticating := false }
        { now := now, authResults := some nta :: as2, refreshResults := none :: rs }
        (.err (some 401) :: b2 :: rest)).st.authTokens = some (installTok now nta)
    ∧ (request { apiKey := none, clientId := some cid, clientSecret := some cs }
        { authTokens := some t0, isAuthenticating := false }
        { now := now, authResults := some nta :: as2, refreshResults := none :: rs }
        (.err (some 401) :: b2 :: rest)).res
      = (match b2 with
         | .ok body => Except.ok body
         | .err s => Except.error (.http s)) := by
  simp only [installTok] at h1
  cases b2 with
  | ok body =>
      refine ⟨?_, ?_, ?_, ?_, ?_⟩ <;>
        simp [request, ensureAuthenticated, authenticate, refreshAccessToken,
              Config.useApiKey, attachAuthHeader, installTok, h0, h1,
              countBiz, countAuth, countRefresh]
  | err s =>
      have hs : ¬ s = some 401 := fun h => h2 (by rw [h])
      refine ⟨?_, ?_, ?_, ?_, ?_⟩ <;>
        simp [request, ensureAuthenticated, authenticate, refreshAccessToken,
              Config.useApiKey, attachAuthHeader, installTok, h0, h1, hs,
              countBiz, countAuth, countRefresh]

/-- C4 witness: refresh failure, full re-authentication, and a successful
retry at concrete inputs. -/
theorem refresh_failure_full_reauth_witness :
    (request { apiKey := none, clientId := some "id", clientSecret := some "secret" }
        { authTokens := some cTok, isAuthenticating := false }
        { now := 0, authResults := [some cNt1], refreshResults := [none] }
        [.err (some 401), .ok "z"]).res = .ok "z" :=
  (refresh_failure_full_reauth "id" "secret" cTok cNt1 0 [] [] (.ok "z") []
    (by decide) (by decide) (by decide)).2.2.2.2

/-- C1 counterexample: with a stale pair held, one task's
`ensureAuthenticated` sets the in-progress flag and suspends on the identity
call; a concurrently scheduled 401 handler then issues a refresh network call
while the flag is still set — the trace records a refresh event with the
flag true, refuting the invariant that no second authentication or refresh
call is issued while the flag is set. -/
theorem refresh_unguarded_by_flag :
    (run cCfg 0 c1sys [0, 1]).trace = [(GEv.auth, false), (GEv.refresh, true)]
    ∧ (run cCfg 0 c1sys [0]).flag = true := by
  decide

/-- C7 counterexample: task 0 authenticates and its identity call fails;
task 1, a waiter suspended on that cycle, returns without error as soon as
the flag clears, with the store still empty, already finished — it does not
re-evaluate or attempt authentication itself (exactly one identity call on
the trace). -/
theorem waiter_ok_without_token :
    ((run cCfg 0 c7sys [0, 1, 0, 1]).tasks 1).pc = PC.tDoneOk
    ∧ (run cCfg 0 c7sys [0, 1, 0, 1]).tokens = none
    ∧ (run cCfg 0 c7sys [0, 1, 0, 1]).trace = [(GEv.auth, false)]
    ∧ ((run cCfg 0 c7sys [0, 1, 0, 1]).tasks 0).pc = PC.tDoneErr := by
  decide

/-- C10: a caller suspended in the wait loop returns successfully as soon as
the flag clears, regardless of the token store's contents — one step from the
wait loop with the flag clear finishes the task without touching the store or
issuing any network call — and with an empty store the request interceptor
attaches no Authorization header at all, so the business request goes out
unauthenticated. -/
theorem waiter_returns_unauthenticated (cfg : Config) (now : Int) (s : Sys) (i : Nat)
    (hi : i < s.n) (hpc : (s.tasks i).pc = PC.eaWait) (hflag : s.flag = false) :
    (((step cfg now s i).tasks i).pc = PC.tDoneOk
      ∧ (step cfg now s i).tokens = s.tokens
      ∧ (step cfg now s i).trace = s.trace
      ∧ attachAuthHeader none = none)
    ∧ (∀ (cfga : Config) (env : Env) (b : String) (rest : List BizOutcome),
        cfga.apiKey = none →
        request cfga { authTokens := none, isAuthenticating := true } env (.ok b :: rest)
          = { res := .ok b, st := { authTokens := none, isAuthenticating := true },
              env := env,
              evs := [.biz { xApiKey := none, authorization := none }] }) := by
  constructor
  · simp [step, hi, hpc, hflag, setTask, attachAuthHeader]
  · intro cfga env b rest hapi
    have hu : cfga.useApiKey = false := by simp [Config.useApiKey, hapi]
    simp [request, ensureAuthenticated, hu, attachAuthHeader]

/-- C10 witness: the waiter of the C7 scenario, at the step where the flag
has just cleared. -/
theorem waiter_returns_unauthenticated_witness :
    ((step cCfg 0 (run cCfg 0 c7sys [0, 1, 0]) 1).tasks 1).pc = PC.tDoneOk
    ∧ (step cCfg 0 (run cCfg 0 c7sys [0, 1, 0]) 1).tokens
        = (run cCfg 0 c7sys [0, 1, 0]).tokens
    ∧ (step cCfg 0 (run cCfg 0 c7sys [0, 1, 0]) 1).trace
        = (run cCfg 0 c7sys [0, 1, 0]).trace
    ∧ attachAuthHeader none = none :=
  (waiter_returns_unauthenticated cCfg 0 (run cCfg 0 c7sys [0, 1, 0]) 1
    (by decide) (by decide) (by decide)).1

/-- Preservation: in OAuth mode with both credentials present and the
identity endpoint answering a pair that is fresh at `now`, one step of any
task keeps the gate invariant. -/
theorem gateInv_step (cfg : Config) (now : Int) (nt : NetTok) (s : Sys) (i : Nat)
    (hapi : cfg.apiKey = none)
    (hcid : cfg.clientId.isNone = false) (hcs : cfg.clientSecret.isNone = false)
    (hfresh : isTokenExpired now (some (installTok now nt)) = false)
    (hinv : GateInv now nt s) : GateInv now nt (step cfg now s i) := by
  obtain ⟨hnet, hph⟩ := hinv
  have hu : cfg.useApiKey = false := by simp [Config.useApiKey, hapi]
  by_cases hi : i < s.n
  · rcases hph with ⟨hf, ht, htr, hpc⟩ | ⟨hf, ht, htr, hpc, huniq⟩ | ⟨hf, ht, htr, hpc⟩
    · -- phase A: the stepped task is at the entry and starts the single
      -- authentication
      have hpci := hpc i
      have hstep : step cfg now s i
          = { s with flag := true,
                     tasks := setTask s.tasks i { s.tasks i with pc := .eaAwaitAuth },
                     trace := s.trace ++ [(.auth, s.flag)] } := by
        simp [step, hi, hpci, hu, hf, ht, hcid, hcs]
      rw [hstep]
      refine ⟨?_, Or.inr (Or.inl ⟨rfl, ht, ?_, ?_, ?_⟩)⟩
      · intro j
        by_cases hj : j = i <;> simp [setTask, hj, hnet]
      · simp [htr, hf]
      · intro j
        by_cases hj : j = i
        · simp [setTask, hj]
        · simp only [setTask, hj, if_false]
          exact Or.inl (hpc j)
      · intro j k hj hk
        by_cases hji : j = i
        · by_cases hki : k = i
          · rw [hji, hki]
          · simp only [setTask, hki, if_false] at hk
            exact absurd hk (by rw [hpc k]; decide)
        · simp only [setTask, hji, if_false] at hj
          exact absurd hj (by rw [hpc j]; decide)
    · -- phase B: one authentication in flight
      rcases hpc i with hpci | hpci | hpci
      · -- entry: the flag is held, so the task joins the wait loop
        have hstep : step cfg now s i
            = { s with tasks := setTask s.tasks i { s.tasks i with pc := .eaWait } } := by
          simp [step, hi, hpci, hu, hf]
        rw [hstep]
        refine ⟨?_, Or.inr (Or.inl ⟨hf, ht, htr, ?_, ?_⟩)⟩
        · intro j
          by_cases hj : j = i <;> simp [setTask, hj, hnet]
        · intro j
          by_cases hj : j = i
          · simp [setTask, hj]
          · simp only [setTask, hj, if_false]
            exact hpc j
        · intro j k hj hk
          by_cases hji : j = i
          · rw [hji] at hj
            simp [setTask] at hj
          · by_cases hki : k = i
            · rw [hki] at hk
              simp [setTask] at hk
            · simp only [setTask, hji, hki, if_false] at hj hk
              exact huniq j k hj hk
      · -- a waiter polls and stays
        have hstep : step cfg now s i = s := by
          simp [step, hi, hpci, hf]
        rw [hstep]
        exact ⟨hnet, Or.inr (Or.inl ⟨hf, ht, htr, hpc, huniq⟩)⟩
      · -- the in-flight identity call completes successfully
        have hneti := hnet i
        have hstep : step cfg now s i
            = { s with flag := false, tokens := some (installTok now nt),
                       tasks := setTask s.tasks i { s.tasks i with pc := .tDoneOk } } := by
          simp [step, hi, hpci, hneti]
        rw [hstep]
        refine ⟨?_, Or.inr (Or.inr ⟨rfl, rfl, htr, ?_⟩)⟩
        · intro j
          by_cases hj : j = i <;> simp [setTask, hj, hnet]
        · intro j
          by_cases hj : j = i
          · simp [setTask, hj]
          · simp only [setTask, hj, if_false]
            rcases hpc j with h | h | h
            · exact Or.inl h
            · exact Or.inr (Or.inl h)
            · exact absurd (huniq j i h hpci) hj
    · -- phase C: the single authentication is finished
      rcases hpc i with hpci | hpci | hpci
      · -- entry with a fresh pair held: immediate success
        have hstep : step cfg now s i
            = { s with tasks := setTask s.tasks i { s.tasks i with pc := .tDoneOk } } := by
          simp [step, hi, hpci, hu, hf, ht, hfresh]
        rw [hstep]
        refine ⟨?_, Or.inr (Or.inr ⟨hf, ht, htr, ?_⟩)⟩
        · intro j
          by_cases hj : j = i <;> simp [setTask, hj, hnet]
        · intro j
          by_cases hj : j = i
          · simp [setTask, hj]
          · simp only [setTask, hj, if_false]
            exact hpc j
      · -- a waiter sees the flag clear and returns
        have hstep : step cfg now s i
            = { s with tasks := setTask s.tasks i { s.tasks i with pc := .tDoneOk } } := by
          simp [step, hi, hpci, hf]
        rw [hstep]
        refine ⟨?_, Or.inr (Or.inr ⟨hf, ht, htr, ?_⟩)⟩
        · intro j
          by_cases hj : j = i <;> simp [setTask, hj, hnet]
        · intro j
          by_cases hj : j = i
          · simp [setTask, hj]
          · simp only [setTask, hj, if_false]
            exact hpc j
      · -- a finished task steps idly
        have hstep : step cfg now s i = s := by
          simp [step, hi, hpci]
        rw [hstep]
        exact ⟨hnet, Or.inr (Or.inr ⟨hf, ht, htr, hpc⟩)⟩
  · have hstep : step cfg now s i = s := by
      simp [step, hi]
    rw [hstep]
    exact ⟨hnet, hph⟩

/-- The gate invariant holds after any schedule, by induction on the
schedule. -/
theorem gateInv_run (cfg : Config) (now : Int) (nt : NetTok)
    (hapi : cfg.apiKey = none)
    (hcid : cfg.clientId.isNone = false) (hcs : cfg.clientSecret.isNone = false)
    (hfresh : isTokenExpired now (some (installTok now nt)) = false) :
    ∀ (sched : List Nat) (s : Sys),
      GateInv now nt s → GateInv now nt (run cfg now s sched) := by
  intro sched
  induction sched with
  | nil => intro s h; simpa [run] using h
  | cons a l ih =>
      intro s h
      have h1 := gateInv_step cfg now nt s a hapi hcid hcs hfresh h
      simpa [run] using ih (step cfg now s a) h1

/-- C1 amended: in OAuth mode with credentials present and the identity
endpoint answering a fresh pair, for any number of concurrent callers
entering `ensureAuthenticated` with no token held and any interleaving, at
most one identity-exchange call is ever issued — and it is issued with the
flag clear, i.e. while the flag is set no second authentication call occurs
through `ensureAuthenticated`; once every caller has finished, exactly one
identity call was made and every caller returned successfully.  (Refresh
calls from the 401 handler are NOT serialized by the flag; see the
counterexample.) -/
theorem gate_single_identity_call (cfg : Config) (now : Int) (nt : NetTok) (n : Nat)
    (hapi : cfg.apiKey = none)
    (hcid : cfg.clientId.isNone = false) (hcs : cfg.clientSecret.isNone = false)
    (hfresh : isTokenExpired now (some (installTok now nt)) = false) :
    ∀ sched : List Nat,
      ((run cfg now (initSys n nt) sched).trace = []
        ∨ (run cfg now (initSys n nt) sched).trace = [(GEv.auth, false)])
      ∧ (0 < n →
          (∀ j, j < n →
              ((run cfg now (initSys n nt) sched).tasks j).pc = PC.tDoneOk
              ∨ ((run cfg now (initSys n nt) sched).tasks j).pc = PC.tDoneErr) →
          (run cfg now (initSys n nt) sched).trace = [(GEv.auth, false)]
          ∧ ∀ j, j < n → ((run cfg now (initSys n nt) sched).tasks j).pc = PC.tDoneOk) := by
  intro sched
  have hinit : GateInv now nt (initSys n nt) :=
    ⟨fun j => rfl, Or.inl ⟨rfl, rfl, rfl, fun j => rfl⟩⟩
  obtain ⟨hnet, hph⟩ :=
    gateInv_run cfg now nt hapi hcid hcs hfresh sched (initSys n nt) hinit
  constructor
  · rcases hph with ⟨_, _, htr, _⟩ | ⟨_, _, htr, _, _⟩ | ⟨_, _, htr, _⟩
    · exact Or.inl htr
    · exact Or.inr htr
    · exact Or.inr htr
  · intro hn hdone
    rcases hph with ⟨_, _, htr, hpc⟩ | ⟨_, _, htr, hpc, _⟩ | ⟨_, _, htr, hpc⟩
    · rcases hdone 0 hn with h | h <;> rw [hpc 0] at h <;> exact absurd h (by decide)
    · rcases hdone 0 hn with h | h <;>
        rcases hpc 0 with h0 | h0 | h0 <;> rw [h0] at h <;> exact absurd h (by decide)
    · refine ⟨htr, ?_⟩
      intro j hj
      rcases hdone j hj with h | h
      · exact h
      · rcases hpc j with h0 | h0 | h0 <;> rw [h0] at h <;> exact absurd h (by decide)

/-- C1 witness: two concurrent callers under a complete schedule. -/
theorem gate_single_identity_call_witness :
    (run cCfg 0 (initSys 2 cNt1) [0, 1, 0, 1]).trace = []
    ∨ (run cCfg 0 (initSys 2 cNt1) [0, 1, 0, 1]).trace = [(GEv.auth, false)] :=
  (gate_single_identity_call cCfg 0 cNt1 2 rfl rfl rfl (by decide) [0, 1, 0, 1]).1

/-- C7 amended: for a caller that finds the flag clear (and so runs the check
and authentication path itself), a successful return of
`ensureAuthenticated` does leave an unexpired pair in the store, provided any
consumed identity response is fresh at `now`; a caller that finds the flag
set, however, waits and then returns successfully relying on the then-current
store state — with no re-evaluation and no authentication attempt of its own,
even when the store is empty (see the counterexample for the failing-cycle
consequence). -/
theorem ensureAuthenticated_success_contract :
    (∀ (cfg : Config) (st : ClientState) (env : Env),
        cfg.apiKey = none → st.isAuthenticating = false →
        (∀ nt rest, env.authResults = some nt :: rest →
            isTokenExpired env.now (some (installTok env.now nt)) = false) →
        (ensureAuthenticated cfg st env).res = .ok () →
        isTokenExpired env.now (ensureAuthenticated cfg st env).st.authTokens = false)
    ∧ (∀ (cfg : Config) (env : Env),
        ensureAuthenticated cfg { authTokens := none, isAuthenticating := true } env
          = { res := .ok (), st := { authTokens := none, isAuthenticating := true },
              env := env, evs := [] }) := by
  constructor
  · intro cfg st env hapi hflag hfresh hok
    have hu : cfg.useApiKey = false := by simp [Config.useApiKey, hapi]
    by_cases htok : (st.authTokens.isSome && !isTokenExpired env.now st.authTokens) = true
    · have heq : ensureAuthenticated cfg st env
          = { res := .ok (), st := st, env := env, evs := [] } := by
        simp [ensureAuthenticated, hu, hflag, htok]
      rw [heq]
      have h2 := (Bool.and_eq_true _ _).mp htok
      simpa using h2.2
    · by_cases hcred : (cfg.clientId.isNone || cfg.clientSecret.isNone) = true
      · have heq : ensureAuthenticated cfg st env
            = { res := .error .authConfig, st := st, env := env, evs := [] } := by
          simp [ensureAuthenticated, hu, hflag, htok, hcred]
        rw [heq] at hok
        simp at hok
      · have heq : ensureAuthenticated cfg st env = authenticate st env := by
          simp [ensureAuthenticated, hu, hflag, htok, hcred]
        rw [heq] at hok ⊢
        rcases har : env.authResults with _ | ⟨r, rest⟩
        · rw [show authenticate st env
              = { res := .error .authRequest,
                  st := { st with isAuthenticating := false },
                  env := env, evs := [.auth] } from by simp [authenticate, har]] at hok
          simp at hok
        · rcases r with _ | nt
          · rw [show authenticate st env
                = { res := .error .authRequest,
                    st := { st with isAuthenticating := false },
                    env := { env with authResults := rest }, evs := [.auth] } from by
              simp [authenticate, har]] at hok
            simp at hok
          · rw [show authenticate st env
                = { res := .ok (),
                    st := { authTokens := some (installTok env.now nt),
                            isAuthenticating := false },
                    env := { env with authResults := rest }, evs := [.auth] } from by
              simp [authenticate, har]]
            exact hfresh nt rest har
  · intro cfg env
    by_cases h : cfg.useApiKey <;> simp [ensureAuthenticated, h]

/-- C7 witness: a non-waiting caller holding a fresh pair returns with that
unexpired pair still in the store. -/
theorem ensureAuthenticated_success_contract_witness :
    isTokenExpired ({ now := 0, authResults := [], refreshResults := [] } : Env).now
      (ensureAuthenticated cCfg cSt
        { now := 0, authResults := [], refreshResults := [] }).st.authTokens = false :=
  ensureAuthenticated_success_contract.1 cCfg cSt
    { now := 0, authResults := [], refreshResults := [] }
    rfl rfl (fun nt rest h => by simp at h) (by decide)

end YouMap
